import Mathlib

/-!
Verification development for the easy.webas Playwright automation server.

Shallow embedding of the execution core found under `app/`:
`executor.py` (queue, browser pool, per-job execution), `validation.py`
(static script validation), `main.py` (HTTP handlers), `webhooks.py`,
`cleanup.py`, `video_service.py`, `database.py`, `models.py`, `config.py`.

Python floats (`time.time()` values, seconds) are modelled as rationals,
Python ints as `Nat`, fallible lookups as `Option`.  Where the code calls
out to the environment (the `uuid4` generator, `sha256` hex digests, the
wall clock, the result of `exec`-ing user code) the embedding takes the
environment as an explicit argument.

Note on the two parallel module trees: the source mixes uppercase and
lowercase `settings` attribute access (`settings.MAX_QUEUE_SIZE` in
`executor.py` versus `settings.max_queue_size` in `config.py`) and two
shapes for some pydantic models.  Following the specification's stated
choice, attribute lookups are modelled as the configured values of
`config.py`, and `ScriptAnalysis` is modelled with the field shape used at
every construction site (`validation.py`, `executor.py`).
-/

namespace EasyWebas

/-- Model of `app/models.py` `ExecutionStatus`: the five lifecycle states.  The spec
calls the `timeout` value `TIMED_OUT`. -/
inductive ExecutionStatus where
  | queued
  | running
  | completed
  | failed
  | timeout
  deriving DecidableEq, Repr

/-- Model of `app/executor.py` `QueueItem` (dataclass): one queued job. -/
structure QueueItem where
  request_id : String
  script : String
  timeout : Nat
  priority : Nat
  api_key_id : Nat
  webhook_url : Option String
  tags : List String
  user_agent : Option String
  created_at : ℚ
  position : Nat := 0
  estimated_duration : ℚ := 60
  deriving DecidableEq, Repr

/-- Model of `QueueItem.__lt__`: higher priority first, then FIFO by `created_at`.
`heapq` (backing `asyncio.PriorityQueue`) pops a minimal element with
respect to this comparison. -/
def QueueItem.lt (a b : QueueItem) : Bool :=
  if a.priority ≠ b.priority then decide (a.priority > b.priority)
  else decide (a.created_at < b.created_at)

/-- Propositional form of `QueueItem.__lt__`. -/
def QueueItem.ltP (a b : QueueItem) : Prop :=
  b.priority < a.priority ∨ (a.priority = b.priority ∧ a.created_at < b.created_at)

theorem QueueItem.lt_iff (a b : QueueItem) : QueueItem.lt a b = true ↔ QueueItem.ltP a b := by
  unfold QueueItem.lt QueueItem.ltP
  by_cases h : a.priority = b.priority <;> simp [h]

theorem QueueItem.lt_false_iff (a b : QueueItem) :
    QueueItem.lt a b = false ↔ ¬ QueueItem.ltP a b := by
  rw [← QueueItem.lt_iff]
  cases QueueItem.lt a b <;> simp

/-- Asymmetry of the queue comparison. -/
theorem QueueItem.lt_asymm {a b : QueueItem} (h : QueueItem.lt a b = true) :
    QueueItem.lt b a = false := by
  rw [QueueItem.lt_iff] at h
  rw [QueueItem.lt_false_iff]
  rcases h with h | ⟨hp, hc⟩
  · rintro (h2 | ⟨hp2, _⟩) <;> omega
  · rintro (h2 | ⟨_, hc2⟩)
    · omega
    · exact absurd (lt_trans hc hc2) (lt_irrefl _)

/-- If `x < m` and `x` does not beat `r`, then `m` does not beat `r`. -/
theorem QueueItem.lt_false_of_lt_of_not_lt {x m r : QueueItem}
    (h1 : QueueItem.lt x m = true) (h2 : QueueItem.lt x r = false) :
    QueueItem.lt m r = false := by
  rw [QueueItem.lt_iff] at h1
  rw [QueueItem.lt_false_iff] at h2 ⊢
  unfold QueueItem.ltP at h1 h2 ⊢
  push_neg at h2
  rcases h1 with h1 | ⟨hp1, hc1⟩
  · rintro (hr | ⟨hpe, _⟩)
    · have := h2.1
      omega
    · have := h2.1
      omega
  · rintro (hr | ⟨hpe, hcr⟩)
    · have := h2.1
      omega
    · have hcx := h2.2 (by omega)
      linarith

/-- Transitivity of "does not beat". -/
theorem QueueItem.lt_false_trans {x m r : QueueItem}
    (h1 : QueueItem.lt x m = false) (h2 : QueueItem.lt m r = false) :
    QueueItem.lt x r = false := by
  rw [QueueItem.lt_false_iff] at h1 h2 ⊢
  unfold QueueItem.ltP at h1 h2 ⊢
  push_neg at h1 h2
  rintro (hr | ⟨hpe, hcr⟩)
  · have := h1.1
    have := h2.1
    omega
  · have hxm := h1.1
    have hmr := h2.1
    have hpxm : x.priority = m.priority := by omega
    have hpmr : m.priority = r.priority := by omega
    have hc1 := h1.2 hpxm
    have hc2 := h2.2 hpmr
    linarith

/-!
`asyncio.PriorityQueue` pops a minimal element with respect to
`QueueItem.__lt__` (the `heapq` invariant).  The embedding models the heap
as the list of stored items and a pop as extraction of the leftmost
minimal element; only minimality of the extracted element is used in
proofs, which is exactly what `heapq` guarantees.
-/

/-- Extract a minimal element (seed `m`) from `m :: l`, returning it and the
remaining items. -/
def selectMin (m : QueueItem) : List QueueItem → QueueItem × List QueueItem
  | [] => (m, [])
  | x :: xs =>
    if QueueItem.lt x m then
      let r := selectMin x xs
      (r.1, m :: r.2)
    else
      let r := selectMin m xs
      (r.1, x :: r.2)

/-- Model of `PriorityQueue.get`: pop a minimal element, or `none` when empty. -/
def dequeue : List QueueItem → Option (QueueItem × List QueueItem)
  | [] => none
  | x :: xs => some (selectMin x xs)

theorem selectMin_snd_length (m : QueueItem) (l : List QueueItem) :
    (selectMin m l).2.length = l.length := by
  induction l generalizing m with
  | nil => rfl
  | cons x xs ih =>
    unfold selectMin
    by_cases h : QueueItem.lt x m <;> simp [h, ih]

/-- Either the seed is extracted, or it remains among the leftover items. -/
theorem selectMin_fst_cases (m : QueueItem) (l : List QueueItem) :
    (selectMin m l).1 = m ∨ m ∈ (selectMin m l).2 := by
  induction l generalizing m with
  | nil => left; rfl
  | cons x xs ih =>
    unfold selectMin
    by_cases h : QueueItem.lt x m <;> simp only [h, ite_true, ite_false]
    · right
      exact List.mem_cons_self _ _
    · rcases ih m with heq | hmem
      · left; exact heq
      · right; exact List.mem_cons_of_mem _ hmem

/-- The extracted element is minimal: no remaining item beats it. -/
theorem selectMin_min (m : QueueItem) (l : List QueueItem) :
    ∀ x ∈ (selectMin m l).2, QueueItem.lt x (selectMin m l).1 = false := by
  induction l generalizing m with
  | nil => simp [selectMin]
  | cons x xs ih =>
    unfold selectMin
    by_cases h : QueueItem.lt x m <;> simp only [h, ite_true, ite_false]
    · intro y hy
      rcases List.mem_cons.mp hy with rfl | hy2
      · rcases selectMin_fst_cases x xs with heq | hmem
        · rw [heq]
          exact QueueItem.lt_asymm h
        · exact QueueItem.lt_false_of_lt_of_not_lt h (ih x _ hmem)
      · exact ih x y hy2
    · intro y hy
      rcases List.mem_cons.mp hy with rfl | hy2
      · rcases selectMin_fst_cases m xs with heq | hmem
        · rw [heq]
          simpa using h
        · exact QueueItem.lt_false_trans (by simpa using h) (ih m _ hmem)
      · exact ih m y hy2

/-- Every leftover item was either the seed or in the original list. -/
theorem selectMin_snd_subset (m : QueueItem) (l : List QueueItem) :
    ∀ x ∈ (selectMin m l).2, x = m ∨ x ∈ l := by
  induction l generalizing m with
  | nil => simp [selectMin]
  | cons y ys ih =>
    unfold selectMin
    by_cases h : QueueItem.lt y m <;> simp only [h, ite_true, ite_false]
    · intro x hx
      rcases List.mem_cons.mp hx with rfl | hx2
      · left; rfl
      · rcases ih y x hx2 with rfl | hmem
        · right; exact List.mem_cons_self _ _
        · right; exact List.mem_cons_of_mem _ hmem
    · intro x hx
      rcases List.mem_cons.mp hx with rfl | hx2
      · right; exact List.mem_cons_self _ _
      · rcases ih m x hx2 with rfl | hmem
        · left; rfl
        · right; exact List.mem_cons_of_mem _ hmem

/-- The extracted element comes from the queue. -/
theorem selectMin_fst_mem (m : QueueItem) (l : List QueueItem) :
    (selectMin m l).1 = m ∨ (selectMin m l).1 ∈ l := by
  induction l generalizing m with
  | nil => left; rfl
  | cons x xs ih =>
    unfold selectMin
    by_cases h : QueueItem.lt x m <;> simp only [h, ite_true, ite_false]
    · rcases ih x with heq | hmem
      · right; rw [heq]; exact List.mem_cons_self _ _
      · right; exact List.mem_cons_of_mem _ hmem
    · rcases ih m with heq | hmem
      · left; exact heq
      · right; exact List.mem_cons_of_mem _ hmem

/-- Fuelled drain loop: pop minima until the queue is empty. -/
def drainGo : Nat → List QueueItem → List QueueItem
  | 0, _ => []
  | _ + 1, [] => []
  | n + 1, x :: xs => (selectMin x xs).1 :: drainGo n (selectMin x xs).2

/-- The sequence of items obtained by dequeueing a queue to exhaustion,
with no enqueues in between: the order in which workers receive jobs. -/
def drain (q : List QueueItem) : List QueueItem := drainGo q.length q

theorem drainGo_mem :
    ∀ (n : Nat) (q : List QueueItem), q.length = n →
      ∀ x ∈ drainGo n q, x ∈ q := by
  intro n
  induction n with
  | zero => intro q _ x hx; simp [drainGo] at hx
  | succ n ih =>
    intro q hq x hx
    match q with
    | [] => simp at hq
    | y :: ys =>
      simp only [drainGo, List.mem_cons] at hx
      rcases hx with rfl | hx2
      · rcases selectMin_fst_mem y ys with heq | hmem
        · rw [heq]; exact List.mem_cons_self _ _
        · exact List.mem_cons_of_mem _ hmem
      · have hlen : (selectMin y ys).2.length = n := by
          rw [selectMin_snd_length]
          simpa using hq
        have := ih (selectMin y ys).2 hlen x hx2
        rcases selectMin_snd_subset y ys x this with rfl | hmem
        · exact List.mem_cons_self _ _
        · exact List.mem_cons_of_mem _ hmem

theorem drainGo_pairwise :
    ∀ (n : Nat) (q : List QueueItem), q.length = n →
      (drainGo n q).Pairwise (fun a b => QueueItem.lt b a = false) := by
  intro n
  induction n with
  | zero => intro q _; simp [drainGo]
  | succ n ih =>
    intro q hq
    match q with
    | [] => simp at hq
    | y :: ys =>
      have hlen : (selectMin y ys).2.length = n := by
        rw [selectMin_snd_length]
        simpa using hq
      simp only [drainGo]
      refine List.Pairwise.cons ?_ (ih _ hlen)
      intro b hb
      exact selectMin_min y ys b (drainGo_mem n _ hlen b hb)

theorem drain_pairwise (q : List QueueItem) :
    (drain q).Pairwise (fun a b => QueueItem.lt b a = false) :=
  drainGo_pairwise q.length q rfl

/-- C3: for any two jobs dequeued from the priority queue at positions
`i < j` of the drain order, either the earlier job has strictly higher
priority, or the priorities are equal and the earlier job was submitted no
later (FIFO).  This is the ordering induced by `QueueItem.__lt__` through
the heap backing `asyncio.PriorityQueue`. -/
theorem C3_dequeue_priority_then_fifo (q : List QueueItem) (i j : Nat)
    (hij : i < j) (hj : j < (drain q).length) :
    ((drain q).get ⟨i, Nat.lt_trans hij hj⟩).priority >
        ((drain q).get ⟨j, hj⟩).priority
    ∨ (((drain q).get ⟨i, Nat.lt_trans hij hj⟩).priority =
          ((drain q).get ⟨j, hj⟩).priority
        ∧ ((drain q).get ⟨i, Nat.lt_trans hij hj⟩).created_at ≤
          ((drain q).get ⟨j, hj⟩).created_at) := by
  have hpw := drain_pairwise q
  rw [List.pairwise_iff_get] at hpw
  have hR := hpw ⟨i, Nat.lt_trans hij hj⟩ ⟨j, hj⟩ hij
  rw [QueueItem.lt_false_iff] at hR
  unfold QueueItem.ltP at hR
  push_neg at hR
  set d1 := (drain q).get ⟨i, Nat.lt_trans hij hj⟩ with hd1
  set d2 := (drain q).get ⟨j, hj⟩ with hd2
  by_cases hp : d1.priority = d2.priority
  · right
    exact ⟨hp, hR.2 hp.symm⟩
  · left
    have := hR.1
    omega

/-- Two concrete jobs: a low-priority early submission... -/
def itemLow : QueueItem :=
  { request_id := "job-low", script := "", timeout := 10, priority := 1,
    api_key_id := 1, webhook_url := none, tags := [], user_agent := none,
    created_at := 0, position := 0 }

/-- And a high-priority later submission. -/
def itemHigh : QueueItem :=
  { request_id := "job-high", script := "", timeout := 10, priority := 5,
    api_key_id := 1, webhook_url := none, tags := [], user_agent := none,
    created_at := 1, position := 1 }

/-!
`PlaywrightExecutor.queue_script` (`app/executor.py`): assign a request id,
fingerprint the script, run the logging-only `ScriptValidator.validate`
(its warnings are logged, never acted on), insert a QUEUED Job Store row
(`record_execution` in `app/database.py`), then `await` a put on the
bounded `asyncio.PriorityQueue`.
-/

/-- Model of `app/models.py` `ScriptRequest` (pydantic): the submission body.  The
pydantic field constraints (`max_length=50000`, `10 ≤ timeout ≤ 600`,
`1 ≤ priority ≤ 5`) are enforced by FastAPI at request parsing and are
modelled in `pydanticGate` below. -/
structure ScriptRequest where
  script : String
  timeout : Nat := 60
  webhook_url : Option String := none
  priority : Nat := 1
  tags : List String := []
  user_agent : Option String := none
  deriving DecidableEq, Repr

/-- One row of the `executions` table (`app/database.py`). -/
structure ExecutionRow where
  request_id : String
  api_key_id : Nat
  status : ExecutionStatus
  script_hash : String
  script_size : Nat
  priority : Nat
  tags : List String
  execution_time : Option ℚ := none
  queue_wait_time : Option ℚ := none
  video_path : Option String := none
  error_message : Option String := none
  webhook_status : Option String := none
  deriving DecidableEq, Repr

/-- The executor state shared by submissions and workers: the bounded
queue (`maxsize = settings.max_queue_size`), the Job Store rows, and the
monotone `queue_position` counter. -/
structure ExecutorState where
  max_queue_size : Nat
  queue : List QueueItem
  executions : List ExecutionRow
  queue_position : Nat
  deriving DecidableEq, Repr

/-- Environment oracles: `uuid.uuid4()`, `hashlib.sha256(...).hexdigest()`
and `time.time()`. -/
structure Env where
  uuid4 : String
  sha256hex : String → String
  now : ℚ

/-- Model of `record_execution` (`app/database.py`): INSERT a QUEUED row. -/
def record_execution (rows : List ExecutionRow) (request_id : String)
    (api_key_id : Nat) (script_hash : String) (script_size : Nat)
    (priority : Nat) (tags : List String) : List ExecutionRow :=
  rows ++ [{ request_id, api_key_id, status := .queued, script_hash,
             script_size, priority, tags }]

/-- Outcome of one `put` step on an `asyncio.Queue`. -/
inductive PutOutcome where
  | enqueued (q : List QueueItem)
  | suspended
  deriving DecidableEq, Repr

/-- Model of `asyncio.Queue.full()`: `maxsize > 0` and `qsize() ≥ maxsize`. -/
def asyncioFull (maxsize : Nat) (q : List QueueItem) : Bool :=
  decide (0 < maxsize) && decide (maxsize ≤ q.length)

/-- Model of `await asyncio.Queue.put(item)`: when the queue is full the coroutine
suspends until a slot frees; it never raises.  `QueueFull` is raised only
by `put_nowait`, which `queue_script` does not call. -/
def asyncioPut (maxsize : Nat) (q : List QueueItem) (item : QueueItem) : PutOutcome :=
  if asyncioFull maxsize q then .suspended else .enqueued (q ++ [item])

/-- Observable outcomes of `queue_script`.  `queueFullRejected` is the
`except asyncio.QueueFull` branch (mark the row FAILED with "Queue is
full" and raise): it is unreachable because the awaited `put` never
raises `QueueFull`. -/
inductive QueueScriptOutcome where
  | enqueued (request_id : String) (st : ExecutorState)
  | suspendedOnFullQueue (request_id : String) (st : ExecutorState)
  | queueFullRejected (request_id : String) (st : ExecutorState)
  deriving DecidableEq, Repr

/-- Model of `PlaywrightExecutor.queue_script`. -/
def queue_script (env : Env) (st : ExecutorState) (request : ScriptRequest)
    (api_key_id : Nat) : QueueScriptOutcome :=
  let request_id := env.uuid4
  let script_hash := env.sha256hex request.script
  let executions2 := record_execution st.executions request_id api_key_id
    script_hash request.script.length request.priority request.tags
  let item : QueueItem :=
    { request_id, script := request.script, timeout := request.timeout,
      priority := request.priority, api_key_id,
      webhook_url := request.webhook_url, tags := request.tags,
      user_agent := request.user_agent, created_at := env.now,
      position := st.queue_position }
  let st1 : ExecutorState :=
    { st with executions := executions2, queue_position := st.queue_position + 1 }
  match asyncioPut st.max_queue_size st1.queue item with
  | .enqueued q2 => .enqueued request_id { st1 with queue := q2 }
  | .suspended => .suspendedOnFullQueue request_id st1

def QueueScriptOutcome.isEnqueued : QueueScriptOutcome → Bool
  | .enqueued _ _ => true
  | _ => false

def QueueScriptOutcome.isSuspended : QueueScriptOutcome → Bool
  | .suspendedOnFullQueue _ _ => true
  | _ => false

def QueueScriptOutcome.queueOf : QueueScriptOutcome → List QueueItem
  | .enqueued _ st => st.queue
  | .suspendedOnFullQueue _ st => st.queue
  | .queueFullRejected _ st => st.queue

/-- Helper: the queue length never exceeds the capacity across a
submission (with a positive capacity and a within-bounds starting queue). -/
theorem queue_length_bound (env : Env) (st : ExecutorState)
    (request : ScriptRequest) (api_key_id : Nat)
    (hpos : 0 < st.max_queue_size)
    (hq : st.queue.length ≤ st.max_queue_size) :
    ((queue_script env st request api_key_id).queueOf).length ≤ st.max_queue_size := by
  unfold queue_script asyncioPut QueueScriptOutcome.queueOf
  by_cases hfull : asyncioFull st.max_queue_size st.queue = true
  · simp only [hfull, ite_true]
    exact hq
  · have hfull2 : asyncioFull st.max_queue_size st.queue = false := by
      cases h : asyncioFull st.max_queue_size st.queue
      · rfl
      · exact absurd h hfull
    simp only [hfull2, Bool.false_eq_true, ite_false, List.length_append, List.length_cons,
      List.length_nil]
    unfold asyncioFull at hfull2
    simp only [Bool.and_eq_false_iff, decide_eq_false_iff_not, not_lt, not_le] at hfull2
    rcases hfull2 with h0 | hlen
    · omega
    · omega

/-- Fingerprint oracle used by the concrete circuit-breaker scenario. -/
def hashOracle : String → String := fun _ => "deadbeef"

/-- Environment for the sixth submission of the failing script. -/
def envC1 : Env := { uuid4 := "req-6", sha256hex := hashOracle, now := 100 }

/-- A terminal FAILED row for fingerprint "deadbeef". -/
def failedRow (i : Nat) : ExecutionRow :=
  { request_id := "req-" ++ toString i, api_key_id := 7, status := .failed,
    script_hash := "deadbeef", script_size := 34, priority := 1, tags := [] }

/-- Job Store after five consecutive failed executions of the same
fingerprint, with an idle queue. -/
def stC1 : ExecutorState :=
  { max_queue_size := 100, queue := [],
    executions := [failedRow 1, failedRow 2, failedRow 3, failedRow 4, failedRow 5],
    queue_position := 5 }

/-- The same failing script, submitted a sixth time. -/
def reqC1 : ScriptRequest :=
  { script := "async def main():\n    assert False", timeout := 30 }

/-- C1 counterexample: after five consecutive FAILED executions of
fingerprint "deadbeef" (visible in the Job Store), a sixth submission of
the same fingerprint is still enqueued — `queue_script` consults no
failure counter and never rejects with `ScriptTemporarilyBlocked`; the
claim that it "fails at Submission ... and never reaches the queue" is
false on this code. -/
theorem C1_sixth_submission_reaches_queue :
    (stC1.executions.filter
        (fun r => decide (r.script_hash = envC1.sha256hex reqC1.script)
          && decide (r.status = ExecutionStatus.failed))).length = 5
    ∧ (queue_script envC1 stC1 reqC1 7).isEnqueued = true
    ∧ ((queue_script envC1 stC1 reqC1 7).queueOf).length = 1 := by
  refine ⟨by decide, by decide, by decide⟩

/-- C1 amended: the code keeps no per-fingerprint failure counter.  As
long as the queue is below capacity, every submission is enqueued —
regardless of any number of prior consecutive failures recorded for its
fingerprint — and no submission is ever rejected by the queue-full
branch, let alone a circuit breaker. -/
theorem C1_no_circuit_breaker (env : Env) (st : ExecutorState)
    (req : ScriptRequest) (k : Nat)
    (hfull : asyncioFull st.max_queue_size st.queue = false) :
    (queue_script env st req k).isEnqueued = true
    ∧ ∀ rid st2, queue_script env st req k ≠ .queueFullRejected rid st2 := by
  unfold queue_script asyncioPut
  simp only [hfull, Bool.false_eq_true, ite_false]
  exact ⟨rfl, fun rid st2 h => QueueScriptOutcome.noConfusion h⟩

/-- Witness for the amended C1 at the concrete five-failures state. -/
theorem C1_no_circuit_breaker_witness :
    asyncioFull stC1.max_queue_size stC1.queue = false
    ∧ ((queue_script envC1 stC1 reqC1 7).isEnqueued = true
        ∧ ∀ rid st2, queue_script envC1 stC1 reqC1 7 ≠ .queueFullRejected rid st2) :=
  ⟨by decide, C1_no_circuit_breaker envC1 stC1 reqC1 7 (by decide)⟩

/-- A queue already holding `max_queue_size = 2` items. -/
def fullQueueState : ExecutorState :=
  { max_queue_size := 2, queue := [itemLow, itemHigh], executions := [],
    queue_position := 2 }

/-- Environment for the submission that meets the full queue. -/
def envC2 : Env := { uuid4 := "req-3", sha256hex := hashOracle, now := 2 }

/-- The submission that meets the full queue. -/
def reqC2 : ScriptRequest := { script := "async def main():\n    return 1" }

/-- C2: with the queue at capacity, `queue_script` suspends on the awaited
`put` — it blocks instead of failing fast — and the `except
asyncio.QueueFull` branch (the intended `QueueFullError` rejection) is
unreachable on every input, because the awaited `put` never raises.  The
queue itself is left unchanged (it never exceeds `max_queue_size`). -/
theorem C2_enqueue_at_capacity_blocks :
    (queue_script envC2 fullQueueState reqC2 1).isSuspended = true
    ∧ ((queue_script envC2 fullQueueState reqC2 1).queueOf).length = 2
    ∧ ∀ env st req k rid st2,
        queue_script env st req k ≠ .queueFullRejected rid st2 := by
  refine ⟨by decide, by decide, ?_⟩
  intro env st req k rid st2
  unfold queue_script asyncioPut
  by_cases hfull : asyncioFull st.max_queue_size st.queue = true
  · simp only [hfull, ite_true]
    exact fun h => QueueScriptOutcome.noConfusion h
  · have hfull2 : asyncioFull st.max_queue_size st.queue = false := by
      cases h : asyncioFull st.max_queue_size st.queue
      · rfl
      · exact absurd h hfull
    simp only [hfull2, Bool.false_eq_true, ite_false]
    exact fun h => QueueScriptOutcome.noConfusion h

/-!
`PlaywrightExecutor._execute_script` (`app/executor.py`): mark the job
RUNNING with its queue wait, lease a browser, open a recording context and
page, run the script under `asyncio.wait_for(..., timeout=item.timeout)`,
then write exactly one terminal Job Store row (COMPLETED / TIMEOUT /
FAILED) and, in the `finally` block, close the context and return the
browser to the pool.  The embedding records the externally visible
effects, in order.  `WebhookManager.send_execution_webhook`
(`app/webhooks.py`) exists but is invoked nowhere in the executor.
-/

/-- JSON-serializable values: the model of what `main` may return. -/
inductive JsonValue where
  | null
  | bool (b : Bool)
  | num (q : ℚ)
  | str (s : String)
  | arr (xs : List JsonValue)
  | obj (fields : List (String × JsonValue))

/-- The global namespace after `exec(script, namespace)` inside
`_run_script`, as an environment oracle: whether a binding named `main`
exists, whether it is callable, and the value `await namespace["main"]()`
produces when it is. -/
structure ExecNamespace where
  hasMain : Bool
  mainCallable : Bool
  mainResult : JsonValue

/-- Model of `PlaywrightExecutor._run_script`: `exec` the script, then call `main`
if a callable of that name was defined, else return `None`. -/
def run_script (ns : ExecNamespace) : JsonValue :=
  if ns.hasMain && ns.mainCallable then ns.mainResult else .null

/-- How the `asyncio.wait_for(self._run_script(...), timeout=...)` call
ends.  For `timedOut`, `lateness ≥ 0` is the extra wall-clock time, past
the job's timeout, until the `except asyncio.TimeoutError` handler reads
the clock. -/
inductive RunOutcome where
  | success (result : JsonValue) (runTime : ℚ)
  | timedOut (lateness : ℚ)
  | raised (msg : String) (runTime : ℚ)

/-- Externally visible effects of one `_execute_script` run. -/
inductive Effect where
  | statusUpdate (request_id : String) (status : ExecutionStatus)
      (execution_time : Option ℚ) (queue_wait_time : Option ℚ)
      (video_path : Option String) (error_message : Option String)
  | browserAcquire
  | browserRelease
  | webhookEnqueue (request_id : String) (url : String)
  deriving DecidableEq, Repr

def Effect.isWebhookEnqueue : Effect → Bool
  | .webhookEnqueue _ _ => true
  | _ => false

def ExecutionStatus.isTerminal : ExecutionStatus → Bool
  | .completed => true
  | .failed => true
  | .timeout => true
  | _ => false

def Effect.isTerminalUpdate : Effect → Bool
  | .statusUpdate _ s _ _ _ _ => s.isTerminal
  | _ => false

/-- The terminal Job Store writes in a trace. -/
def terminalUpdates (tr : List Effect) : List Effect :=
  tr.filter Effect.isTerminalUpdate

/-- Effect trace of `_execute_script`: `qw` is the queue wait written with
the RUNNING update, `pre ≥ 0` the wall-clock time from `start_time` until
`wait_for` begins (status write, browser lease, context and page creation,
counter sampling), `vid` the recording path salvaged from `page.video`,
and `outcome` how the script run ended.  `execution_time` is always
`time.time() - start_time` at the respective handler. -/
def executeScriptTrace (item : QueueItem) (qw pre : ℚ) (vid : Option String)
    (outcome : RunOutcome) : List Effect :=
  [Effect.statusUpdate item.request_id .running none (some qw) none none,
   Effect.browserAcquire]
  ++ (match outcome with
    | .success _ runTime =>
        [Effect.statusUpdate item.request_id .completed (some (pre + runTime))
          (some qw) vid none]
    | .timedOut late =>
        [Effect.statusUpdate item.request_id .timeout
          (some (pre + item.timeout + late)) (some qw) vid
          (some ("Script timed out after " ++ toString item.timeout ++ " seconds"))]
    | .raised msg runTime =>
        [Effect.statusUpdate item.request_id .failed (some (pre + runTime))
          (some qw) vid (some msg)])
  ++ [Effect.browserRelease]

/-- A job that declared a callback URL. -/
def itemC4 : QueueItem :=
  { request_id := "job-c4", script := "async def main():\n    return 1",
    timeout := 30, priority := 1, api_key_id := 3,
    webhook_url := some "http://cb.example/hook", tags := [],
    user_agent := none, created_at := 0, position := 0 }

/-- C4 counterexample: a job with a declared callback URL reaches the
terminal state COMPLETED (exactly one terminal Job Store write appears in
the trace), yet no webhook delivery is ever enqueued — the executor never
calls `send_execution_webhook`, so the claimed "a webhook delivery is
enqueued" is false on this code. -/
theorem C4_no_webhook_enqueued_counterexample :
    itemC4.webhook_url = some "http://cb.example/hook"
    ∧ (terminalUpdates (executeScriptTrace itemC4 1 2
        (some "./data/videos/job-c4.webm")
        (.success (.obj [("x", .num 1)]) 3))).length = 1
    ∧ (executeScriptTrace itemC4 1 2 (some "./data/videos/job-c4.webm")
        (.success (.obj [("x", .num 1)]) 3)).all
        (fun e => !e.isWebhookEnqueue) = true := by
  refine ⟨by decide, by decide, by decide⟩

/-- C4 amended: on every execution path the executor writes exactly one
terminal state to the Job Store and never enqueues a webhook delivery,
whether or not the job declared a callback URL
(`WebhookManager.send_execution_webhook` is dead code with respect to the
executor); in particular no webhook can ever disagree with the Store. -/
theorem C4_terminal_write_never_webhook (item : QueueItem) (qw pre : ℚ)
    (vid : Option String) (outcome : RunOutcome) :
    (terminalUpdates (executeScriptTrace item qw pre vid outcome)).length = 1
    ∧ ∀ e ∈ executeScriptTrace item qw pre vid outcome,
        e.isWebhookEnqueue = false := by
  cases outcome <;>
    simp [executeScriptTrace, terminalUpdates, Effect.isTerminalUpdate,
      Effect.isWebhookEnqueue, ExecutionStatus.isTerminal]

/-- A job with a 10-second timeout whose script overruns it. -/
def itemC6 : QueueItem :=
  { request_id := "job-c6", script := "async def main():\n    await asyncio.sleep(30)",
    timeout := 10, priority := 1, api_key_id := 3, webhook_url := none,
    tags := [], user_agent := none, created_at := 0, position := 0 }

/-- C6: when `wait_for` times out, the single terminal Job Store write is
TIMED_OUT (`ExecutionStatus.TIMEOUT`, not FAILED or COMPLETED), carrying
`execution_time = pre + timeout + lateness`, and that recorded
`execution_time` is at least the job's timeout. -/
theorem C6_timeout_terminal_and_duration (item : QueueItem) (qw pre late : ℚ)
    (vid : Option String) (hpre : 0 ≤ pre) (hlate : 0 ≤ late) :
    terminalUpdates (executeScriptTrace item qw pre vid (.timedOut late)) =
      [Effect.statusUpdate item.request_id .timeout
        (some (pre + item.timeout + late)) (some qw) vid
        (some ("Script timed out after " ++ toString item.timeout ++ " seconds"))]
    ∧ (item.timeout : ℚ) ≤ pre + item.timeout + late := by
  constructor
  · simp [executeScriptTrace, terminalUpdates, Effect.isTerminalUpdate,
      ExecutionStatus.isTerminal]
  · linarith

/-- Witness for C6 at a concrete timed-out job. -/
theorem C6_timeout_terminal_and_duration_witness :
    (0:ℚ) ≤ 2 ∧ (0:ℚ) ≤ 1
    ∧ (terminalUpdates (executeScriptTrace itemC6 1 2
          (some "./data/videos/job-c6.webm") (.timedOut 1)) =
        [Effect.statusUpdate itemC6.request_id .timeout
          (some (2 + itemC6.timeout + 1)) (some 1)
          (some "./data/videos/job-c6.webm")
          (some ("Script timed out after " ++ toString itemC6.timeout ++ " seconds"))]
      ∧ (itemC6.timeout : ℚ) ≤ 2 + itemC6.timeout + 1) :=
  ⟨by norm_num, by norm_num,
    C6_timeout_terminal_and_duration itemC6 1 2 1
      (some "./data/videos/job-c6.webm") (by norm_num) (by norm_num)⟩

/-!
`BrowserPool` (`app/executor.py`): browsers are modelled by numeric ids,
`_create_browser` by drawing a fresh id.  `get_browser` pops the last
available browser (`list.pop()`), and — when none is available — creates
and returns a new browser on demand.  `return_browser` re-appends the
browser when it is still connected, otherwise closes it and appends a
freshly created replacement.
-/

structure BrowserPool where
  pool_size : Nat
  browsers : List Nat
  available_browsers : List Nat
  next_browser_id : Nat
  deriving DecidableEq, Repr

structure AcquireResult where
  browser : Nat
  pool : BrowserPool
  deriving DecidableEq, Repr

/-- Model of `BrowserPool.get_browser`: pop an available browser, or create one on
demand.  There is no waiting and no failure outcome. -/
def get_browser (p : BrowserPool) : AcquireResult :=
  match p.available_browsers.getLast? with
  | some b =>
      { browser := b,
        pool := { p with available_browsers := p.available_browsers.dropLast } }
  | none =>
      { browser := p.next_browser_id,
        pool := { p with next_browser_id := p.next_browser_id + 1 } }

/-- Model of `BrowserPool.return_browser`: re-append a connected browser; replace a
dead one with a freshly created browser. -/
def return_browser (p : BrowserPool) (b : Nat) (connected : Bool) : BrowserPool :=
  if connected then
    { p with available_browsers := p.available_browsers ++ [b] }
  else
    { p with available_browsers := p.available_browsers ++ [p.next_browser_id],
             next_browser_id := p.next_browser_id + 1 }

/-- A pool of size one with its single browser available. -/
def poolOne : BrowserPool :=
  { pool_size := 1, browsers := [0], available_browsers := [0],
    next_browser_id := 1 }

/-- C7 counterexample: with `browser_pool_size = 1`, two acquisitions with
no release in between both succeed immediately — the second creates
browser 1 on demand — so two distinct browsers are leased at once,
exceeding the pool size; `get_browser` never blocks and has no
`BrowserUnavailable` outcome (its result type is total). -/
theorem C7_acquire_exceeds_pool_size :
    poolOne.pool_size = 1
    ∧ (get_browser poolOne).browser = 0
    ∧ (get_browser (get_browser poolOne).pool).browser = 1
    ∧ (get_browser (get_browser poolOne).pool).browser ≠
        (get_browser poolOne).browser := by
  refine ⟨by decide, by decide, by decide, by decide⟩

/-- C7 amended: `Acquire` never blocks and never fails — when no pooled
browser is free, `get_browser` creates and returns a fresh browser on
demand, so the number of leased browsers is not bounded by
`browser_pool_size`; within the executor, every acquired browser is
released exactly once, as the last effect of the run, on all exit paths
(success, timeout, exception). -/
theorem C7_on_demand_acquire_and_paired_release (p : BrowserPool)
    (item : QueueItem) (qw pre : ℚ) (vid : Option String)
    (outcome : RunOutcome) (hempty : p.available_browsers = []) :
    (get_browser p).browser = p.next_browser_id
    ∧ (executeScriptTrace item qw pre vid outcome).count Effect.browserAcquire = 1
    ∧ (executeScriptTrace item qw pre vid outcome).count Effect.browserRelease = 1
    ∧ (executeScriptTrace item qw pre vid outcome).getLast? =
        some Effect.browserRelease := by
  refine ⟨?_, ?_, ?_, ?_⟩
  · simp [get_browser, hempty]
  · cases outcome <;> simp [executeScriptTrace, List.count_cons, List.count_append]
  · cases outcome <;> simp [executeScriptTrace, List.count_cons, List.count_append]
  · cases outcome <;> simp [executeScriptTrace]

/-- Witness for the amended C7: the exhausted pool after one acquisition
from `poolOne`, and a concrete successful run. -/
theorem C7_on_demand_acquire_and_paired_release_witness :
    (get_browser poolOne).pool.available_browsers = []
    ∧ ((get_browser (get_browser poolOne).pool).browser =
          (get_browser poolOne).pool.next_browser_id
      ∧ (executeScriptTrace itemC6 1 2 none (.success .null 3)).count
          Effect.browserAcquire = 1
      ∧ (executeScriptTrace itemC6 1 2 none (.success .null 3)).count
          Effect.browserRelease = 1
      ∧ (executeScriptTrace itemC6 1 2 none (.success .null 3)).getLast? =
          some Effect.browserRelease) :=
  ⟨by decide,
    C7_on_demand_acquire_and_paired_release (get_browser poolOne).pool
      itemC6 1 2 none (.success .null 3) (by decide)⟩

/-!
Video retrieval, GET `/video/\x7brequest_id\x7d/\x7bapi_key_value\x7d`
(`app/main.py` `get_video`, `app/video_service.py`
`VideoService.serve_video_file`): look the key up by value, require it
active, require the `videos` or `admin` scope, then serve the file found
at `./data/videos/<request_id>.webm`.  The Job Store is never consulted.
-/

/-- One row of the `api_keys` table (`app/database.py`). -/
structure ApiKeyRow where
  id : Nat
  key_value : String
  is_active : Bool
  scopes : List String
  webhook_url : Option String := none
  deriving DecidableEq, Repr

/-- The persistent store: `api_keys` and `executions`. -/
structure AppDb where
  api_keys : List ApiKeyRow
  executions : List ExecutionRow
  deriving DecidableEq, Repr

/-- Model of `get_api_key_by_value` (`app/database.py`). -/
def get_api_key_by_value (db : AppDb) (v : String) : Option ApiKeyRow :=
  db.api_keys.find? (fun k => decide (k.key_value = v))

/-- Model of `VideoService.find_video_file`: the flat store holds
`<request_id>.webm` directly under the video root; `files` lists the
request ids with an existing recording. -/
def find_video_file (files : List String) (request_id : String) : Option String :=
  if request_id ∈ files then some ("./data/videos/" ++ request_id ++ ".webm")
  else none

/-- Model of `VideoService.serve_video_file`: find the file and re-check existence
(the same membership test in this model). -/
def serve_video_file (files : List String) (request_id : String) : Option String :=
  find_video_file files request_id

/-- HTTP outcome of the video endpoint. -/
inductive VideoResponse where
  | fileResponse (path : String)
  | httpError (status : Nat) (detail : String)
  deriving DecidableEq, Repr

/-- Model of `get_video` (`app/main.py`): 401 for an unknown or inactive key, 403
when the key has neither the `videos` nor the `admin` scope, 404 when no
recording exists, otherwise stream the file.  No ownership comparison
against the Job Store occurs. -/
def get_video (db : AppDb) (files : List String)
    (request_id api_key_value : String) : VideoResponse :=
  match get_api_key_by_value db api_key_value with
  | none => .httpError 401 "Invalid API key"
  | some k =>
    if !k.is_active then .httpError 401 "Invalid API key"
    else if !(decide ("videos" ∈ k.scopes) || decide ("admin" ∈ k.scopes)) then
      .httpError 403 "No video access"
    else
      match serve_video_file files request_id with
      | none => .httpError 404 "Video not found"
      | some p => .fileResponse p

/-- The identity that submitted job "job-r1". -/
def ownerKey : ApiKeyRow :=
  { id := 1, key_value := "keyA", is_active := true,
    scopes := ["execute", "videos"] }

/-- A different identity holding only the `videos` scope. -/
def otherKey : ApiKeyRow :=
  { id := 2, key_value := "keyB", is_active := true, scopes := ["videos"] }

/-- The completed job owned by key 1. -/
def rowC5 : ExecutionRow :=
  { request_id := "job-r1", api_key_id := 1, status := .completed,
    script_hash := "deadbeef", script_size := 30, priority := 1, tags := [],
    video_path := some "./data/videos/job-r1.webm" }

/-- Store with one completed job owned by key 1 and its recording. -/
def dbC5 : AppDb := { api_keys := [ownerKey, otherKey], executions := [rowC5] }

def filesC5 : List String := ["job-r1"]

/-- C5: the Job Store records key 1 as the owner of job "job-r1", yet the
request authenticated as key 2 (a non-owner with only the `videos` scope)
is served the recording instead of being rejected with 403 — `get_video`
never compares the requesting identity with the job's `api_key_id`. -/
theorem C5_non_owner_is_served_video :
    ((dbC5.executions.find? (fun r => decide (r.request_id = "job-r1"))).map
        (fun r => r.api_key_id)) = some 1
    ∧ (get_api_key_by_value dbC5 "keyB").map (fun k => k.id) = some 2
    ∧ get_video dbC5 filesC5 "job-r1" "keyB" =
        .fileResponse "./data/videos/job-r1.webm" := by
  refine ⟨by decide, by decide, by decide⟩

/-!
Retention sweeps.  Two distinct sweeps exist in the source:

* `SystemCleaner._cleanup_old_videos` (`app/cleanup.py`), run by the daily
  scheduler: deletes `*.webm` files whose `st_mtime` is older than
  `video_retention_days` and, for each deletion, runs
  `_mark_video_deleted` — `UPDATE executions SET video_path = NULL WHERE
  request_id = ?` — leaving the row in place.
* `VideoService.cleanup_old_videos` (`app/video_service.py`), run by
  DELETE `/admin/videos/cleanup`: deletes files whose `st_ctime` is older
  than the retention period and performs no Job Store update at all.

Time is measured in days since the epoch; `cutoff = now - retention`.
-/

/-- A recording on disk, identified by the file stem (`request_id`). -/
structure VideoFile where
  request_id : String
  mtime : ℚ
  ctime : ℚ
  deriving DecidableEq, Repr

/-- Video root plus Job Store, as seen by the sweeps. -/
structure CleanupState where
  files : List VideoFile
  executions : List ExecutionRow
  deriving DecidableEq, Repr

/-- Model of `SystemCleaner._mark_video_deleted`. -/
def mark_video_deleted (rows : List ExecutionRow) (request_id : String) :
    List ExecutionRow :=
  rows.map (fun r =>
    if r.request_id = request_id then { r with video_path := none } else r)

/-- Model of `SystemCleaner._cleanup_old_videos`. -/
def systemCleanerSweep (now video_retention_days : ℚ) (st : CleanupState) :
    CleanupState :=
  let cutoff := now - video_retention_days
  let old := st.files.filter (fun f => decide (f.mtime < cutoff))
  { files := st.files.filter (fun f => !decide (f.mtime < cutoff)),
    executions := old.foldl
      (fun rows f => mark_video_deleted rows f.request_id) st.executions }

/-- Model of `VideoService.cleanup_old_videos`. -/
def videoServiceCleanup (now retention_days : ℚ) (st : CleanupState) :
    CleanupState :=
  let cutoff := now - retention_days
  { files := st.files.filter (fun f => !decide (f.ctime < cutoff)),
    executions := st.executions }

/-- A 10-day-old recording (both timestamps 10 days before `now = 10`). -/
def fileC8 : VideoFile := { request_id := "job-v1", mtime := 0, ctime := 0 }

/-- The job row owning that recording. -/
def rowC8 : ExecutionRow :=
  { request_id := "job-v1", api_key_id := 1, status := .completed,
    script_hash := "deadbeef", script_size := 30, priority := 1, tags := [],
    video_path := some "./data/videos/job-v1.webm" }

def stC8 : CleanupState := { files := [fileC8], executions := [rowC8] }

/-- C8 counterexample: the retention sweep behind the admin endpoint
(`VideoService.cleanup_old_videos`, `video_retention_days = 7`,
`now = 10`) deletes the 10-day-old recording but leaves the matching Job
row's `video_path` populated — so "for each deleted recording the
matching Job row's `video_path` is set to null" fails for this sweep
(which also selects by `st_ctime`, not mtime). -/
theorem C8_admin_sweep_keeps_video_path :
    (videoServiceCleanup 10 7 stC8).files = []
    ∧ (videoServiceCleanup 10 7 stC8).executions = [rowC8]
    ∧ rowC8.video_path = some "./data/videos/job-v1.webm" := by
  have hold : fileC8.ctime < 10 - 7 := by norm_num [fileC8]
  exact ⟨by simp [videoServiceCleanup, stC8, hold], rfl, rfl⟩

/-- Folding `_mark_video_deleted` over the deleted files nulls
`video_path` exactly on the rows whose `request_id` matches a deleted
file. -/
theorem foldl_mark_video_deleted (old : List VideoFile) (rows : List ExecutionRow) :
    old.foldl (fun rs f => mark_video_deleted rs f.request_id) rows =
      rows.map (fun r =>
        if old.any (fun f => decide (f.request_id = r.request_id)) then
          { r with video_path := none }
        else r) := by
  induction old generalizing rows with
  | nil =>
    simp only [List.foldl_nil, List.any_nil, if_false]
    exact (List.map_id rows).symm
  | cons f fs ih =>
    simp only [List.foldl_cons, List.any_cons]
    rw [ih]
    unfold mark_video_deleted
    rw [List.map_map]
    refine List.map_congr_left ?_
    intro r _
    simp only [Function.comp]
    by_cases h : r.request_id = f.request_id
    · have h1 : decide (f.request_id = r.request_id) = true := decide_eq_true h.symm
      simp [if_pos h, h1]
    · have h1 : decide (f.request_id = r.request_id) = false :=
        decide_eq_false (fun hh => h hh.symm)
      simp [if_neg h, h1]

/-- C8 amended: the scheduled sweep (`SystemCleaner._cleanup_old_videos`)
deletes every recording whose mtime is older than `video_retention_days`
and sets `video_path` to null exactly on the Job rows matching a deleted
recording, while preserving every Job row; the admin-endpoint sweep
(`VideoService.cleanup_old_videos`) deletes by ctime and leaves the Job
Store untouched. -/
theorem C8_scheduled_sweep_deletes_and_nulls (now ret : ℚ) (st : CleanupState) :
    (∀ f ∈ st.files, f.mtime < now - ret →
        f ∉ (systemCleanerSweep now ret st).files)
    ∧ (systemCleanerSweep now ret st).executions =
        st.executions.map (fun r =>
          if (st.files.filter (fun f => decide (f.mtime < now - ret))).any
              (fun f => decide (f.request_id = r.request_id)) then
            { r with video_path := none }
          else r)
    ∧ (systemCleanerSweep now ret st).executions.length = st.executions.length
    ∧ (videoServiceCleanup now ret st).executions = st.executions := by
  refine ⟨?_, ?_, ?_, rfl⟩
  · intro f hf hold hmem
    unfold systemCleanerSweep at hmem
    simp only [List.mem_filter] at hmem
    rcases hmem with ⟨_, hcond⟩
    simp only [Bool.not_eq_eq_eq_not, Bool.not_true, decide_eq_false_iff_not] at hcond
    exact hcond hold
  · unfold systemCleanerSweep
    exact foldl_mark_video_deleted _ _
  · simp only [systemCleanerSweep, foldl_mark_video_deleted, List.length_map]

/-- Witness for the amended C8 at the concrete 10-day-old recording. -/
theorem C8_scheduled_sweep_deletes_and_nulls_witness :
    fileC8 ∈ stC8.files ∧ fileC8.mtime < 10 - 7
    ∧ fileC8 ∉ (systemCleanerSweep 10 7 stC8).files
    ∧ (systemCleanerSweep 10 7 stC8).executions =
        [{ rowC8 with video_path := none }] := by
  have hold : fileC8.mtime < 10 - 7 := by norm_num [fileC8]
  refine ⟨by simp [stC8], hold,
    (C8_scheduled_sweep_deletes_and_nulls 10 7 stC8).1 fileC8 (by simp [stC8]) hold,
    ?_⟩
  rw [(C8_scheduled_sweep_deletes_and_nulls 10 7 stC8).2.1]
  norm_num [stC8, rowC8, fileC8]

/-!
`ScriptValidator` (`app/validation.py`).  The regex matchers are embedded
as executable character-list scanners.  `re` semantics respected: `\s`
matches space, tab, CR, LF, vertical tab and form feed (and may cross
lines); `.` never matches a newline, so a `.*` gap must stay within one
line; `re.IGNORECASE` is modelled by lowering the text and using lowercase
literals.  A matcher named `...At` matches at the current position;
`anyPosB` turns it into a search over every position.
-/

/-- Python `\s` character class. -/
def pyIsSpace (c : Char) : Bool :=
  c == ' ' || c == '\t' || c == '\n' || c == '\r' || c == '\x0b' || c == '\x0c'

/-- Lowercase a character list (`re.IGNORECASE` / `str.lower()`). -/
def lowerChars (l : List Char) : List Char := l.map Char.toLower

/-- Does the pattern literally lead the text? -/
def leadsList : List Char → List Char → Bool
  | [], _ => true
  | _ :: _, [] => false
  | p :: ps, c :: cs => p == c && leadsList ps cs

/-- Match a literal at the current position, returning the rest. -/
def afterLitChars : List Char → List Char → Option (List Char)
  | [], l => some l
  | _ :: _, [] => none
  | p :: ps, c :: cs => if p == c then afterLitChars ps cs else none

/-- Rest of the text after the first occurrence of the pattern. -/
def afterSeqChars (pat : List Char) : List Char → Option (List Char)
  | [] => afterLitChars pat []
  | c :: cs =>
    match afterLitChars pat (c :: cs) with
    | some r => some r
    | none => afterSeqChars pat cs

/-- Does the predicate hold at some position (any suffix)? -/
def anyPosB (p : List Char → Bool) : List Char → Bool
  | [] => p []
  | c :: cs => p (c :: cs) || anyPosB p cs

/-- Substring test (`pat in text` or an `re` search of a plain literal). -/
def containsSeq (pat : String) (l : List Char) : Bool :=
  anyPosB (leadsList pat.data) l

/-- Skip `\s*`. -/
def dropSpaces : List Char → List Char
  | [] => []
  | c :: cs => if pyIsSpace c then dropSpaces cs else c :: cs

/-- Is the next character a `\s` (first step of a `\s+`)? -/
def hasLeadingSpace : List Char → Bool
  | [] => false
  | c :: _ => pyIsSpace c

/-- Split at newlines (the lines within which a `.` gap must stay). -/
def splitLines : List Char → List (List Char)
  | [] => [[]]
  | c :: cs =>
    if c == '\n' then [] :: splitLines cs
    else
      match splitLines cs with
      | [] => [[c]]
      | l :: ls => (c :: l) :: ls

/-- Model of `def\s+main\s*\(` at the current position (the source's second
pattern, `async\s+def\s+main\s*\(`, can only match where this one also
matches). -/
def defMainAt (l : List Char) : Bool :=
  match afterLitChars "def".data l with
  | none => false
  | some r1 =>
    hasLeadingSpace r1 &&
      (match afterLitChars "main".data (dropSpaces r1) with
       | none => false
       | some r2 => leadsList "(".data (dropSpaces r2))

/-- Model of `re.search` of the `main` definition patterns over the whole script
(`_check_function_definitions`). -/
def hasMainDef (s : String) : Bool := anyPosB defMainAt s.data

/-- Model of `NAME\s*\(` at the current position (for `eval\s*\(`, `exec\s*\(`). -/
def nameCallAt (nm : String) (l : List Char) : Bool :=
  match afterLitChars nm.data l with
  | none => false
  | some r => leadsList "(".data (dropSpaces r)

/-- Model of `A\s+B` at the current position (for `import\s+os`, `from\s+os`). -/
def litSpLitAt (a b : String) (l : List Char) : Bool :=
  match afterLitChars a.data l with
  | none => false
  | some r => hasLeadingSpace r && leadsList b.data (dropSpaces r)

/-- Model of `while\s+COND\s*:` at the current position. -/
def whileColonAt (cond : String) (l : List Char) : Bool :=
  match afterLitChars "while".data l with
  | none => false
  | some r =>
    hasLeadingSpace r &&
      (match afterLitChars cond.data (dropSpaces r) with
       | none => false
       | some r2 => leadsList ":".data (dropSpaces r2))

/-- Model of `__.*__` within one line: a second "__" at least two characters after
the start of a first "__". -/
def dunderLine (line : List Char) : Bool :=
  match afterSeqChars "__".data line with
  | some r => containsSeq "__" r
  | none => false

/-- Scanner for the tail of `for\s+.*\s+in\s+itertools\.count\(`: skip
non-newline characters (the `.*`) until `\s` `in` `\s+` `itertools.count(`
matches; the `\s` runs themselves may contain newlines. -/
def forInAnchorScan : List Char → Bool
  | [] => false
  | c :: cs =>
    (pyIsSpace c &&
      (match afterLitChars "in".data (dropSpaces (c :: cs)) with
       | some r =>
         hasLeadingSpace r && leadsList "itertools.count(".data (dropSpaces r)
       | none => false))
    || (!(c == '\n') && forInAnchorScan cs)

/-- Model of `for\s+.*\s+in\s+itertools\.count\(` at the current position. -/
def forItertoolsAt (l : List Char) : Bool :=
  match afterLitChars "for".data l with
  | none => false
  | some r =>
    match r with
    | [] => false
    | c :: cs => pyIsSpace c && forInAnchorScan cs

/-- Model of `while.*not.*selector` within one line. -/
def whileNotSelectorLine (line : List Char) : Bool :=
  match afterSeqChars "while".data line with
  | some r1 =>
    match afterSeqChars "not".data r1 with
    | some r2 => containsSeq "selector" r2
    | none => false
  | none => false

/-- Scanner for the tail of `\.screenshot\(.*full_page\s*=\s*True`: skip
non-newline characters until `full_page\s*=\s*true` matches. -/
def screenshotAnchorScan : List Char → Bool
  | [] => false
  | c :: cs =>
    (match afterLitChars "full_page".data (c :: cs) with
     | some r =>
       match afterLitChars "=".data (dropSpaces r) with
       | some r2 => leadsList "true".data (dropSpaces r2)
       | none => false
     | none => false)
    || (!(c == '\n') && screenshotAnchorScan cs)

/-- Model of `\.screenshot\(.*full_page\s*=\s*True` at the current position. -/
def screenshotFullPageAt (l : List Char) : Bool :=
  match afterLitChars ".screenshot(".data l with
  | none => false
  | some r => screenshotAnchorScan r

/-- Count and strip leading digits (`\d+` / `\d\x7b3,\x7d`). -/
def countLeadingDigits : List Char → Nat × List Char
  | [] => (0, [])
  | c :: cs =>
    if c.isDigit then
      let r := countLeadingDigits cs
      (r.1 + 1, r.2)
    else (0, c :: cs)

/-- Model of `time\.sleep\(\s*\d+\s*\)` at the current position. -/
def timeSleepIntAt (l : List Char) : Bool :=
  match afterLitChars "time.sleep(".data l with
  | none => false
  | some r =>
    let d := countLeadingDigits (dropSpaces r)
    decide (0 < d.1) && leadsList ")".data (dropSpaces d.2)

/-- Scanner for `range\(\s*\d\x7b3,\x7d` after a non-newline gap. -/
def rangeAnchorScan : List Char → Bool
  | [] => false
  | c :: cs =>
    (match afterLitChars "range(".data (c :: cs) with
     | some r => decide (3 ≤ (countLeadingDigits (dropSpaces r)).1)
     | none => false)
    || (!(c == '\n') && rangeAnchorScan cs)

/-- Scanner for `in.*range\(\s*\d\x7b3,\x7d` after a non-newline gap. -/
def inRangeScan : List Char → Bool
  | [] => false
  | c :: cs =>
    (match afterLitChars "in".data (c :: cs) with
     | some r => rangeAnchorScan r
     | none => false)
    || (!(c == '\n') && inRangeScan cs)

/-- Model of `for.*in.*range\(\s*\d\x7b3,\x7d` at the current position. -/
def forInRangeAt (l : List Char) : Bool :=
  match afterLitChars "for".data l with
  | none => false
  | some r => inRangeScan r

/-- Model of `re.findall` count for an alternation of literals: at each position
try the alternatives in order; on a match, continue after it
(non-overlapping), else advance one character.  Fuelled by the text
length (each step consumes at least one character). -/
def countAltGo (pats : List (List Char)) : Nat → List Char → Nat
  | 0, _ => 0
  | _ + 1, [] => 0
  | n + 1, c :: cs =>
    match pats.find? (fun p => leadsList p (c :: cs)) with
    | some p => 1 + countAltGo pats n (List.drop (p.length - 1) cs)
    | none => countAltGo pats n cs

def countAlt (pats : List String) (l : List Char) : Nat :=
  countAltGo (pats.map (fun s => s.data)) l.length l

/-!
The abstract syntax walked by `_analyze_ast`.  `ast.parse` itself is
Python's parser: the embedding takes the parse result as an oracle
argument (`Except String PyModule`, the error message being `str(e)` of
the `SyntaxError`).  Only the node kinds the validator dispatches on are
distinguished; `ast.walk` enumerates every node breadth-first, and the
analysis only depends on which per-node warnings, operations and counters
fire, so the embedding collects them per subtree instead.
-/

inductive PyExpr where
  | name (id : String)
  | attribute (value : PyExpr) (attr : String)
  | call (func : PyExpr) (args : List PyExpr)
  | constant
  deriving Repr

inductive PyStmt where
  | importStmt (names : List String)
  | importFrom (module : Option String)
  | functionDef (name : String) (body : List PyStmt)
  | asyncFunctionDef (name : String) (body : List PyStmt)
  | forStmt (body : List PyStmt)
  | whileStmt (body : List PyStmt)
  | returnStmt (value : Option PyExpr)
  | assign (target : String) (value : PyExpr)
  | exprStmt (e : PyExpr)
  | passStmt
  deriving Repr

structure PyModule where
  body : List PyStmt
  deriving Repr

/-- Model of `ScriptValidator.FORBIDDEN_IMPORTS` (`app/validation.py`). -/
def FORBIDDEN_IMPORTS : List String :=
  ["os", "subprocess", "sys", "eval", "exec", "__import__",
   "open", "file", "input", "raw_input", "compile", "globals",
   "locals", "vars", "dir", "getattr", "setattr", "delattr",
   "hasattr", "isinstance", "issubclass", "callable", "classmethod",
   "staticmethod", "property", "super", "type", "object"]

/-- Model of `ScriptValidator.DANGEROUS_FUNCTIONS` (`app/validation.py`). -/
def DANGEROUS_FUNCTIONS : List String :=
  ["eval", "exec", "compile", "__import__", "getattr", "setattr",
   "delattr", "globals", "locals", "vars", "open", "file"]

/-- Model of `ScriptValidator.PLAYWRIGHT_OPERATIONS`, in insertion order;
`_categorize_playwright_operation` returns the first matching category. -/
def categorize_playwright_operation (m : String) : List String :=
  if ["goto", "go_back", "go_forward", "reload", "navigate"].contains m then
    ["navigation"]
  else if ["click", "dblclick", "tap", "fill", "clear", "type", "press",
      "key"].contains m then
    ["interaction"]
  else if ["fill", "check", "uncheck", "select_option",
      "set_input_files"].contains m then
    ["form_filling"]
  else if ["wait_for_selector", "wait_for_load_state", "wait_for_timeout",
      "wait_for_event", "wait_for_function"].contains m then
    ["waiting"]
  else if ["text_content", "inner_text", "inner_html", "get_attribute",
      "input_value"].contains m then
    ["data_extraction"]
  else if ["screenshot", "pdf", "video"].contains m then
    ["capture"]
  else if ["evaluate", "evaluate_handle", "query_selector",
      "query_selector_all"].contains m then
    ["evaluation"]
  else if ["set_extra_http_headers", "set_user_agent", "route",
      "unroute"].contains m then
    ["network"]
  else []

/-- Model of `attr.startswith("__") and attr.endswith("__")`. -/
def dunderName (attr : String) : Bool :=
  leadsList "__".data attr.data && leadsList "__".data attr.data.reverse

/-- Per-walk counters of `_analyze_ast`. -/
structure AstCounts where
  nodes : Nat
  loops : Nat
  functions : Nat
  imports : Nat
  deriving DecidableEq, Repr

def AstCounts.add (a b : AstCounts) : AstCounts :=
  ⟨a.nodes + b.nodes, a.loops + b.loops, a.functions + b.functions,
   a.imports + b.imports⟩

mutual

/-- Warnings fired by the `_analyze_ast` dispatch over an expression
subtree: dangerous calls by name, and dunder attribute access. -/
def exprWarnings : PyExpr → List String
  | .name _ => []
  | .constant => []
  | .attribute v attr =>
    (if dunderName attr then ["Dunder attribute access: " ++ attr] else [])
      ++ exprWarnings v
  | .call f args =>
    (match f with
     | .name id =>
       if id ∈ DANGEROUS_FUNCTIONS then
         ["Dangerous function call: " ++ id]
       else []
     | _ => []) ++ exprWarnings f ++ exprListWarnings args

def exprListWarnings : List PyExpr → List String
  | [] => []
  | e :: es => exprWarnings e ++ exprListWarnings es

end

mutual

/-- Playwright operations detected over an expression subtree (method
calls, i.e. `Call` nodes whose `func` is an `Attribute`). -/
def exprOps : PyExpr → List String
  | .name _ => []
  | .constant => []
  | .attribute v _ => exprOps v
  | .call f args =>
    (match f with
     | .attribute _ m => categorize_playwright_operation m
     | _ => []) ++ exprOps f ++ exprListOps args

def exprListOps : List PyExpr → List String
  | [] => []
  | e :: es => exprOps e ++ exprListOps es

end

mutual

def exprCounts : PyExpr → AstCounts
  | .name _ => ⟨1, 0, 0, 0⟩
  | .constant => ⟨1, 0, 0, 0⟩
  | .attribute v _ => AstCounts.add ⟨1, 0, 0, 0⟩ (exprCounts v)
  | .call f args =>
    AstCounts.add ⟨1, 0, 0, 0⟩ (AstCounts.add (exprCounts f) (exprListCounts args))

def exprListCounts : List PyExpr → AstCounts
  | [] => ⟨0, 0, 0, 0⟩
  | e :: es => AstCounts.add (exprCounts e) (exprListCounts es)

end

mutual

/-- Warnings fired over a statement subtree: forbidden imports and
forbidden from-imports, plus everything fired in nested expressions and
bodies. -/
def stmtWarnings : PyStmt → List String
  | .importStmt names =>
    names.filterMap (fun n =>
      if n ∈ FORBIDDEN_IMPORTS then some ("Forbidden import: " ++ n)
      else none)
  | .importFrom mod =>
    (match mod with
     | some m =>
       if m ∈ FORBIDDEN_IMPORTS then ["Forbidden module: " ++ m] else []
     | none => [])
  | .functionDef _ body => stmtListWarnings body
  | .asyncFunctionDef _ body => stmtListWarnings body
  | .forStmt body => stmtListWarnings body
  | .whileStmt body => stmtListWarnings body
  | .returnStmt v =>
    (match v with
     | some e => exprWarnings e
     | none => [])
  | .assign _ v => exprWarnings v
  | .exprStmt e => exprWarnings e
  | .passStmt => []

def stmtListWarnings : List PyStmt → List String
  | [] => []
  | s :: ss => stmtWarnings s ++ stmtListWarnings ss

end

mutual

def stmtOps : PyStmt → List String
  | .importStmt _ => []
  | .importFrom _ => []
  | .functionDef _ body => stmtListOps body
  | .asyncFunctionDef _ body => stmtListOps body
  | .forStmt body => stmtListOps body
  | .whileStmt body => stmtListOps body
  | .returnStmt v =>
    (match v with
     | some e => exprOps e
     | none => [])
  | .assign _ v => exprOps v
  | .exprStmt e => exprOps e
  | .passStmt => []

def stmtListOps : List PyStmt → List String
  | [] => []
  | s :: ss => stmtOps s ++ stmtListOps ss

end

mutual

def stmtCounts : PyStmt → AstCounts
  | .importStmt _ => ⟨1, 0, 0, 1⟩
  | .importFrom _ => ⟨1, 0, 0, 1⟩
  | .functionDef _ body => AstCounts.add ⟨1, 0, 1, 0⟩ (stmtListCounts body)
  | .asyncFunctionDef _ body => AstCounts.add ⟨1, 0, 1, 0⟩ (stmtListCounts body)
  | .forStmt body => AstCounts.add ⟨1, 1, 0, 0⟩ (stmtListCounts body)
  | .whileStmt body => AstCounts.add ⟨1, 1, 0, 0⟩ (stmtListCounts body)
  | .returnStmt v =>
    AstCounts.add ⟨1, 0, 0, 0⟩
      (match v with
       | some e => exprCounts e
       | none => ⟨0, 0, 0, 0⟩)
  | .assign _ v => AstCounts.add ⟨1, 0, 0, 0⟩ (exprCounts v)
  | .exprStmt e => AstCounts.add ⟨1, 0, 0, 0⟩ (exprCounts e)
  | .passStmt => ⟨1, 0, 0, 0⟩

def stmtListCounts : List PyStmt → AstCounts
  | [] => ⟨0, 0, 0, 0⟩
  | s :: ss => AstCounts.add (stmtCounts s) (stmtListCounts ss)

end

/-- Model of `_analyze_ast`: the `ast.walk` includes the `Module` node itself.
Returns (warnings, operations, complexity). -/
def analyze_ast (m : PyModule) : List String × List String × String :=
  let counts := AstCounts.add ⟨1, 0, 0, 0⟩ (stmtListCounts m.body)
  let complexity :=
    if 200 < counts.nodes ∨ 10 < counts.loops ∨ 5 < counts.functions then "high"
    else if 100 < counts.nodes ∨ 5 < counts.loops ∨ 2 < counts.functions then
      "medium"
    else "low"
  let warnings := stmtListWarnings m.body ++
    (if 5 < counts.imports then
      ["Too many imports: " ++ toString counts.imports]
     else [])
  (warnings, stmtListOps m.body, complexity)

/-- Model of `settings.max_script_size` (`app/config.py`), also the pydantic
`max_length` on `ScriptRequest.script`. -/
def MAX_SCRIPT_SIZE : Nat := 50000

/-- Model of `_check_security_patterns`: the compiled `DANGEROUS_PATTERNS` (with
`re.IGNORECASE`), in order, then the plain forbidden substrings over
`script.lower()`.  Each warning text reproduces the pattern. -/
def check_security_patterns (script : String) : List String :=
  let low := lowerChars script.data
  (if (splitLines low).any dunderLine then
    ["Dangerous pattern detected: __.*__"] else [])
  ++ (if containsSeq ".system(" low then
    ["Dangerous pattern detected: \\.system\\("] else [])
  ++ (if containsSeq ".popen(" low then
    ["Dangerous pattern detected: \\.popen\\("] else [])
  ++ (if containsSeq ".call(" low then
    ["Dangerous pattern detected: \\.call\\("] else [])
  ++ (if anyPosB (litSpLitAt "import" "os") low then
    ["Dangerous pattern detected: import\\s+os"] else [])
  ++ (if anyPosB (litSpLitAt "from" "os") low then
    ["Dangerous pattern detected: from\\s+os"] else [])
  ++ (if containsSeq "subprocess" low then
    ["Dangerous pattern detected: subprocess"] else [])
  ++ (if anyPosB (nameCallAt "eval") low then
    ["Dangerous pattern detected: eval\\s*\\("] else [])
  ++ (if anyPosB (nameCallAt "exec") low then
    ["Dangerous pattern detected: exec\\s*\\("] else [])
  ++ (["import os", "import sys", "import subprocess", "__import__"].filterMap
      (fun f =>
        if containsSeq f low then some ("Forbidden import pattern: " ++ f)
        else none))

/-- Model of `_check_function_definitions`: the async/await sanity check and the
`main` patterns are case-sensitive over the raw script; the infinite-loop
patterns use `re.IGNORECASE`. -/
def check_function_definitions (script : String) : List String :=
  let low := lowerChars script.data
  (if !containsSeq "async def" script.data && containsSeq "await " script.data then
    ["Using \x27await\x27 without \x27async def\x27 - this will cause errors"]
   else [])
  ++ (if !hasMainDef script then
    ["Script must contain an async main() function"] else [])
  ++ (if anyPosB (whileColonAt "true") low then
    ["Potential infinite loop detected: while\\s+True\\s*:"] else [])
  ++ (if anyPosB (whileColonAt "1") low then
    ["Potential infinite loop detected: while\\s+1\\s*:"] else [])
  ++ (if anyPosB forItertoolsAt low then
    ["Potential infinite loop detected: for\\s+.*\\s+in\\s+itertools\\.count\\("]
   else [])

/-- Model of `_analyze_performance_patterns` (all `re.IGNORECASE`). -/
def analyze_performance_patterns (script : String) : List String :=
  let low := lowerChars script.data
  (if anyPosB timeSleepIntAt low then
    ["Performance concern: Using time.sleep() - consider page.wait_for_timeout()"]
   else [])
  ++ (if (splitLines low).any whileNotSelectorLine then
    ["Performance concern: Busy waiting for selector - use wait_for_selector()"]
   else [])
  ++ (if anyPosB screenshotFullPageAt low then
    ["Performance concern: Full page screenshots can be slow"] else [])
  ++ (if containsSeq ".pdf(" low then
    ["Performance concern: PDF generation can be resource intensive"] else [])
  ++ (if anyPosB forInRangeAt low then
    ["Performance concern: Large loops may cause timeouts"] else [])
  ++ (let sc := countAlt ["query_selector", "wait_for_selector", "click", "fill"] low
      if 50 < sc then ["High number of selector operations: " ++ toString sc]
      else [])

/-- Model of `app/models.py` `ScriptAnalysis`, with the field shape used at every
construction site (`validation.py`, `executor.py`); the declaration at
`models.py:87` lists different required fields and would reject every
construction — the embedding follows the construction sites. -/
structure ScriptAnalysis where
  estimated_complexity : String
  detected_operations : List String
  security_warnings : List String
  deriving DecidableEq, Repr

/-- Model of `ScriptValidator.validate_script`: size check, pattern checks, AST
analysis (or the `SyntaxError` warning and complexity "high"), function
definition checks, performance checks.  `list(set(...))` on the detected
operations is modelled as `dedup` (Python set order is unspecified). -/
def validate_script (script : String) (parse : Except String PyModule) :
    ScriptAnalysis :=
  let sizeW :=
    if MAX_SCRIPT_SIZE < script.data.length then
      ["Script too large: " ++ toString script.data.length ++ " bytes (max: "
        ++ toString MAX_SCRIPT_SIZE ++ ")"]
    else []
  let secW := check_security_patterns script
  let funcW := check_function_definitions script
  let perfW := analyze_performance_patterns script
  match parse with
  | .ok m =>
    let a := analyze_ast m
    { estimated_complexity := a.2.2,
      detected_operations := a.2.1.dedup,
      security_warnings := sizeW ++ secW ++ a.1 ++ funcW ++ perfW }
  | .error msg =>
    { estimated_complexity := "high",
      detected_operations := [],
      security_warnings :=
        sizeW ++ secW ++ ["Syntax error: " ++ msg] ++ funcW ++ perfW }

/-- Model of `ScriptValidator.estimate_execution_time` (seconds, as `ℚ`). -/
def estimate_execution_time (script : String) (parse : Except String PyModule) :
    ℚ :=
  let low := lowerChars script.data
  let base : ℚ := 5
  let base :=
    match parse with
    | .ok m =>
      let nodes := (AstCounts.add ⟨1, 0, 0, 0⟩ (stmtListCounts m.body)).nodes
      base * (1 + min ((nodes : ℚ) / 50) 3)
    | .error _ => base * 2
  let base := base
    + (countAlt [".goto("] low : ℚ) * 2
    + (countAlt [".screenshot("] low : ℚ) * (3 / 2)
    + (countAlt [".pdf("] low : ℚ) * 3
    + (countAlt ["wait_for_selector"] low : ℚ) * 2
    + (countAlt ["time.sleep"] low : ℚ) * 1
    + (countAlt [".fill("] low : ℚ) * (1 / 2)
    + (countAlt [".click("] low : ℚ) * (3 / 10)
  min base 300

/-- Model of `_get_execution_recommendation`. -/
def get_execution_recommendation (analysis : ScriptAnalysis)
    (estimated_time : ℚ) : String :=
  if analysis.security_warnings ≠ [] then "REJECT - Security concerns detected"
  else if 180 < estimated_time then "REVIEW - Long execution time estimated"
  else if analysis.estimated_complexity = "high" then
    "REVIEW - High complexity script"
  else if 8 < analysis.detected_operations.length then
    "REVIEW - Many operations detected"
  else "APPROVE - Script appears safe for execution"

/-- The keyword filter deciding which warnings block execution. -/
def criticalKeywords : List String :=
  ["forbidden", "dangerous", "syntax error", "main()"]

/-- Is one of the critical keywords contained in `w.lower()`? -/
def isCriticalWarning (w : String) : Bool :=
  criticalKeywords.any (fun k => containsSeq k (lowerChars w.data))

/-- Result dictionary of `validate_script_for_execution`. -/
structure ValidationResult where
  analysis : ScriptAnalysis
  estimated_time : ℚ
  is_safe : Bool
  critical_warnings : List String
  recommendation : String
  deriving DecidableEq, Repr

/-- Model of `ScriptValidator.validate_script_for_execution`. -/
def validate_script_for_execution (script : String)
    (parse : Except String PyModule) : ValidationResult :=
  let analysis := validate_script script parse
  let est := estimate_execution_time script parse
  let critical := analysis.security_warnings.filter isCriticalWarning
  { analysis, estimated_time := est, is_safe := critical.isEmpty,
    critical_warnings := critical,
    recommendation := get_execution_recommendation analysis est }

/-- HTTP-visible outcome of POST `/execute` for a submission. -/
inductive SubmitOutcome where
  | unprocessable422
  | validationError400 (warnings : List String)
  | queuedForExecution
  deriving DecidableEq, Repr

/-- The pydantic constraints on `ScriptRequest` (`app/models.py`):
FastAPI rejects a violating request body with HTTP 422 before the
handler runs. -/
def pydanticGate (script : String) (timeout priority : Nat) : Bool :=
  decide (script.data.length ≤ 50000) && decide (10 ≤ timeout)
    && decide (timeout ≤ 600) && decide (1 ≤ priority) && decide (priority ≤ 5)

/-- Model of `execute_script` (`app/main.py`), up to the enqueue: a parsed request
runs the validator and is rejected with HTTP 400 ("Script validation
failed", the critical warnings) when `is_safe` is false, otherwise it
proceeds to `queue_script`. -/
def submit_execute (script : String) (timeout priority : Nat)
    (parse : Except String PyModule) : SubmitOutcome :=
  if !pydanticGate script timeout priority then .unprocessable422
  else
    let v := validate_script_for_execution script parse
    if !v.is_safe then .validationError400 v.critical_warnings
    else .queuedForExecution

theorem string_data_append (s t : String) : (s ++ t).data = s.data ++ t.data := by
  cases s
  cases t
  rfl

theorem leadsList_append (p l1 l2 : List Char) (h : leadsList p l1 = true) :
    leadsList p (l1 ++ l2) = true := by
  induction p generalizing l1 with
  | nil => rfl
  | cons c cs ih =>
    cases l1 with
    | nil => simp [leadsList] at h
    | cons d ds =>
      simp only [leadsList, Bool.and_eq_true] at h ⊢
      exact ⟨h.1, ih ds h.2⟩

theorem anyPosB_of_here (p : List Char → Bool) (l : List Char)
    (h : p l = true) : anyPosB p l = true := by
  cases l with
  | nil => exact h
  | cons c cs => simp [anyPosB, h]

/-- A warning starting (case-insensitively) with one of the critical
keywords is critical, whatever follows. -/
theorem isCriticalWarning_of_leading_keyword (key w rest : String)
    (hkey : key ∈ criticalKeywords)
    (hlead : leadsList key.data (lowerChars w.data) = true) :
    isCriticalWarning (w ++ rest) = true := by
  unfold isCriticalWarning
  rw [List.any_eq_true]
  refine ⟨key, hkey, ?_⟩
  unfold containsSeq
  rw [string_data_append]
  unfold lowerChars
  rw [List.map_append]
  exact anyPosB_of_here _ _ (leadsList_append _ _ _ hlead)

/-- Any critical warning among the analysis warnings makes the handler
answer HTTP 400. -/
theorem submit_rejects_of_critical (script : String) (timeout priority : Nat)
    (parse : Except String PyModule)
    (hgate : pydanticGate script timeout priority = true) (w : String)
    (hw : w ∈ (validate_script script parse).security_warnings)
    (hcrit : isCriticalWarning w = true) :
    ∃ ws, submit_execute script timeout priority parse =
      .validationError400 ws := by
  have hmem : w ∈ (validate_script script parse).security_warnings.filter
      isCriticalWarning := List.mem_filter.mpr ⟨hw, hcrit⟩
  have hne : (validate_script script parse).security_warnings.filter
      isCriticalWarning ≠ [] := List.ne_nil_of_mem hmem
  have hempty : ((validate_script script parse).security_warnings.filter
      isCriticalWarning).isEmpty = false := by
    cases h : ((validate_script script parse).security_warnings.filter
        isCriticalWarning).isEmpty
    · rfl
    · exact absurd (List.isEmpty_iff.mp h) hne
  refine ⟨(validate_script script parse).security_warnings.filter
    isCriticalWarning, ?_⟩
  unfold submit_execute validate_script_for_execution
  simp only [hgate, Bool.not_true, Bool.false_eq_true, ite_false, hempty,
    Bool.not_false, ite_true]

theorem stmtListWarnings_mem_of_stmt (ss : List PyStmt) (s : PyStmt)
    (hs : s ∈ ss) (w : String) (hw : w ∈ stmtWarnings s) :
    w ∈ stmtListWarnings ss := by
  induction ss with
  | nil => cases hs
  | cons t ts ih =>
    rcases List.mem_cons.mp hs with rfl | hs2
    · exact List.mem_append.mpr (Or.inl hw)
    · exact List.mem_append.mpr (Or.inr (ih hs2))

theorem mem_validate_script_security_ok (script : String) (m : PyModule)
    (w : String) (hw : w ∈ stmtListWarnings m.body) :
    w ∈ (validate_script script (.ok m)).security_warnings := by
  unfold validate_script analyze_ast
  simp [List.mem_append, hw]

theorem mem_validate_script_security_func (script : String)
    (parse : Except String PyModule) (w : String)
    (hw : w ∈ check_function_definitions script) :
    w ∈ (validate_script script parse).security_warnings := by
  unfold validate_script
  cases parse <;> simp [List.mem_append, hw]

theorem mem_validate_script_syntax_warning (script msg : String) :
    ("Syntax error: " ++ msg) ∈
      (validate_script script (.error msg)).security_warnings := by
  unfold validate_script
  simp [List.mem_append]

/-- An oversized script of 50001 characters (otherwise irrelevant). -/
def oversizedScript : String := String.mk (List.replicate 50001 'a')

theorem oversizedScript_length : oversizedScript.data.length = 50001 := by
  rw [show oversizedScript.data = List.replicate 50001 'a' from rfl,
    List.length_replicate]

/-- C9 counterexample: a submission whose script exceeds the configured
max size is rejected by the pydantic request model with HTTP 422
(`unprocessable422`), which is not the claimed `ValidationError`
(HTTP 400); moreover the validator's own "Script too large" warning
matches none of the critical keywords, so the validator never blocks on
size either. -/
theorem C9_oversized_script_not_validation_error :
    oversizedScript.data.length = 50001
    ∧ submit_execute oversizedScript 60 1 (.error "invalid syntax") =
        .unprocessable422
    ∧ (∀ ws, SubmitOutcome.unprocessable422 = .validationError400 ws → False)
    ∧ isCriticalWarning ("Script too large: " ++ toString 50001
        ++ " bytes (max: " ++ toString 50000 ++ ")") = false := by
  refine ⟨oversizedScript_length, ?_, fun ws h => SubmitOutcome.noConfusion h,
    by decide⟩
  have h1 : decide (oversizedScript.data.length ≤ 50000) = false :=
    decide_eq_false (by rw [oversizedScript_length]; omega)
  unfold submit_execute pydanticGate
  rw [h1]
  rfl

/-- C9 amended: a parsed submission fails with `ValidationError`
(HTTP 400) when the script fails to parse, when a denied module is
imported, when a call to a denied global is syntactically present, or
when no textual `def main(` / `async def main(` occurrence exists (in
particular the empty script is rejected for lacking `main`); a script
exceeding the max size is instead rejected at request parsing with
HTTP 422 and never reaches the validator. -/
theorem C9_validation_rejections :
    (∀ (script : String) (timeout priority : Nat) (msg : String),
        pydanticGate script timeout priority = true →
        ∃ ws, submit_execute script timeout priority (.error msg) =
          .validationError400 ws)
    ∧ (∀ (script : String) (timeout priority : Nat)
          (parse : Except String PyModule),
        pydanticGate script timeout priority = true →
        hasMainDef script = false →
        ∃ ws, submit_execute script timeout priority parse =
          .validationError400 ws)
    ∧ submit_execute "" 60 1 (.ok ⟨[]⟩) =
        .validationError400 ["Script must contain an async main() function"]
    ∧ (∀ (script : String) (timeout priority : Nat) (m : PyModule)
          (names : List String) (n : String),
        pydanticGate script timeout priority = true →
        PyStmt.importStmt names ∈ m.body → n ∈ names →
        n ∈ FORBIDDEN_IMPORTS →
        ∃ ws, submit_execute script timeout priority (.ok m) =
          .validationError400 ws)
    ∧ (∀ (script : String) (timeout priority : Nat) (m : PyModule)
          (f : String) (args : List PyExpr),
        pydanticGate script timeout priority = true →
        PyStmt.exprStmt (.call (.name f) args) ∈ m.body →
        f ∈ DANGEROUS_FUNCTIONS →
        ∃ ws, submit_execute script timeout priority (.ok m) =
          .validationError400 ws)
    ∧ (∀ (script : String) (timeout priority : Nat)
          (parse : Except String PyModule),
        50000 < script.data.length →
        submit_execute script timeout priority parse = .unprocessable422) := by
  refine ⟨?_, ?_, by decide, ?_, ?_, ?_⟩
  · intro script timeout priority msg hgate
    exact submit_rejects_of_critical script timeout priority _ hgate _
      (mem_validate_script_syntax_warning script msg)
      (isCriticalWarning_of_leading_keyword "syntax error" "Syntax error: " msg
        (by decide) (by decide))
  · intro script timeout priority parse hgate hmain
    refine submit_rejects_of_critical script timeout priority parse hgate
      "Script must contain an async main() function"
      (mem_validate_script_security_func script parse _ ?_) (by decide)
    unfold check_function_definitions
    simp [hmain, List.mem_append]
  · intro script timeout priority m names n hgate hstmt hn hforb
    refine submit_rejects_of_critical script timeout priority _ hgate
      ("Forbidden import: " ++ n)
      (mem_validate_script_security_ok script m _
        (stmtListWarnings_mem_of_stmt m.body _ hstmt _ ?_))
      (isCriticalWarning_of_leading_keyword "forbidden" "Forbidden import: " n
        (by decide) (by decide))
    unfold stmtWarnings
    exact List.mem_filterMap.mpr ⟨n, hn, by rw [if_pos hforb]⟩
  · intro script timeout priority m f args hgate hstmt hdang
    refine submit_rejects_of_critical script timeout priority _ hgate
      ("Dangerous function call: " ++ f)
      (mem_validate_script_security_ok script m _
        (stmtListWarnings_mem_of_stmt m.body _ hstmt _ ?_))
      (isCriticalWarning_of_leading_keyword "dangerous" "Dangerous function call: " f
        (by decide) (by decide))
    unfold stmtWarnings
    simp only [exprWarnings]
    refine List.mem_append.mpr (Or.inl (List.mem_append.mpr (Or.inl ?_)))
    rw [if_pos hdang]
    exact List.mem_singleton.mpr rfl
  · intro script timeout priority parse hlen
    have h1 : decide (script.data.length ≤ 50000) = false :=
      decide_eq_false (Nat.not_le.mpr hlen)
    unfold submit_execute pydanticGate
    rw [h1]
    rfl

/-- Witness for the amended C9: a syntax-error script, a main-less
script, and an oversized script, each at concrete inputs. -/
theorem C9_validation_rejections_witness :
    pydanticGate "x =" 60 1 = true
    ∧ (∃ ws, submit_execute "x =" 60 1 (.error "invalid syntax") =
        .validationError400 ws)
    ∧ hasMainDef "x = 1" = false
    ∧ (∃ ws, submit_execute "x = 1" 60 1 (.ok ⟨[.assign "x" .constant]⟩) =
        .validationError400 ws)
    ∧ 50000 < oversizedScript.data.length
    ∧ submit_execute oversizedScript 60 1 (.ok ⟨[]⟩) = .unprocessable422 := by
  refine ⟨by decide,
    C9_validation_rejections.1 "x =" 60 1 "invalid syntax" (by decide),
    by decide,
    C9_validation_rejections.2.1 "x = 1" 60 1 (.ok ⟨[.assign "x" .constant]⟩)
      (by decide) (by decide),
    by rw [oversizedScript_length]; omega,
    C9_validation_rejections.2.2.2.2.2 oversizedScript 60 1 (.ok ⟨[]⟩)
      (by rw [oversizedScript_length]; omega)⟩

/-- A script whose `def main(` appears only inside a comment: the textual
check passes, but `exec` leaves no `main` binding behind. -/
def scriptC10 : String := "# async def main(\npass"

/-- C10: `scriptC10` passes validation (its `def main(` occurrence lies
in a comment), and whenever the executed namespace holds no callable
named `main`, `_run_script` returns `None` and the job's one terminal Job
Store write is COMPLETED (with no error and no result column), not
FAILED. -/
theorem C10_no_callable_main_completes_null (ns : ExecNamespace)
    (item : QueueItem) (qw pre rt : ℚ) (vid : Option String)
    (hns : (ns.hasMain && ns.mainCallable) = false) :
    (validate_script_for_execution scriptC10 (.ok ⟨[.passStmt]⟩)).is_safe = true
    ∧ run_script ns = .null
    ∧ terminalUpdates (executeScriptTrace item qw pre vid
        (.success (run_script ns) rt)) =
      [Effect.statusUpdate item.request_id .completed (some (pre + rt))
        (some qw) vid none] := by
  refine ⟨by decide, ?_, ?_⟩
  · unfold run_script
    simp [hns]
  · simp [executeScriptTrace, terminalUpdates, Effect.isTerminalUpdate,
      ExecutionStatus.isTerminal]

/-- The namespace left by `exec`-ing `scriptC10`: no `main` binding. -/
def nsC10 : ExecNamespace :=
  { hasMain := false, mainCallable := false, mainResult := .null }

/-- Witness for C10 at the concrete comment-only script and namespace. -/
theorem C10_no_callable_main_completes_null_witness :
    (nsC10.hasMain && nsC10.mainCallable) = false
    ∧ ((validate_script_for_execution scriptC10 (.ok ⟨[.passStmt]⟩)).is_safe = true
      ∧ run_script nsC10 = .null
      ∧ terminalUpdates (executeScriptTrace itemC4 1 2 none
          (.success (run_script nsC10) 3)) =
        [Effect.statusUpdate itemC4.request_id .completed (some ((2 : ℚ) + 3))
          (some 1) none none]) :=
  ⟨by decide,
    C10_no_callable_main_completes_null nsC10 itemC4 1 2 3 none (by decide)⟩

/-- Witness for C3: with a priority-1 job submitted first and a priority-5
job second, the drain order pops the priority-5 job first and the ordering
property holds between positions 0 and 1. -/
theorem C3_dequeue_priority_then_fifo_witness :
    ((drain [itemLow, itemHigh]).get ⟨0, by decide⟩).priority >
        ((drain [itemLow, itemHigh]).get ⟨1, by decide⟩).priority
    ∨ (((drain [itemLow, itemHigh]).get ⟨0, by decide⟩).priority =
          ((drain [itemLow, itemHigh]).get ⟨1, by decide⟩).priority
        ∧ ((drain [itemLow, itemHigh]).get ⟨0, by decide⟩).created_at ≤
          ((drain [itemLow, itemHigh]).get ⟨1, by decide⟩).created_at) :=
  C3_dequeue_priority_then_fifo [itemLow, itemHigh] 0 1 (by decide) (by decide)

end EasyWebas
